import Mathlib

/-!
Verification of the Ngonilélé tablature generator core
(`src/utils/parser.ts` and `src/utils/audio.ts`).

The embedding uses ℚ for the JavaScript `number` type: every numeric
constant appearing in the source and in the claims (tick values 12, 6, 4,
3, 48, 24, dotted values, quantization scales 32767/32768) is an integer
or small rational, on which IEEE double arithmetic is exact.

String processing is embedded as structurally recursive functions on
`List Char` (so that concrete runs of the parser reduce inside the
kernel); each such function is documented with the JavaScript operation
it models.
-/

set_option maxRecDepth 8000

namespace Ngonilele

/-! ### Character-list models of the JavaScript string operations -/

/-- `text.trim()`: strip leading and trailing whitespace.  (JS also strips
a few exotic Unicode spaces; the sources and claims only use ASCII
whitespace, where this coincides.) -/
def trimChars (cs : List Char) : List Char :=
  ((cs.dropWhile Char.isWhitespace).reverse.dropWhile Char.isWhitespace).reverse

/-- `s.split(sep)` for a single-character separator: keeps empty pieces,
yields `[""]` on the empty string, exactly as in JavaScript. -/
def splitOnChar (sep : Char) : List Char → List (List Char)
  | [] => [[]]
  | c :: cs =>
    let r := splitOnChar sep cs
    if c = sep then [] :: r
    else
      match r with
      | [] => [[c]]
      | h :: t => (c :: h) :: t

/-- Accumulating pass of `words`: `acc` holds the current in-progress
token, reversed. -/
def wordsAux : List Char → List Char → List (List Char)
  | acc, [] => if acc.isEmpty then [] else [acc.reverse]
  | acc, c :: cs =>
    if Char.isWhitespace c then
      if acc.isEmpty then wordsAux [] cs else acc.reverse :: wordsAux [] cs
    else wordsAux (c :: acc) cs

/-- The maximal runs of non-whitespace characters.  On a trimmed line this
is exactly JS `line.trim().split(/\s+/)`; on an all-whitespace line JS
yields `[""]` where this yields `[]`, and both fail the parser's
`parts.length < 2` guard, so the parser behaves identically. -/
def words (cs : List Char) : List (List Char) :=
  wordsAux [] cs

/-- `line.trim().split(/\s+/)` as a list of strings (see `words`). -/
def fields (line : String) : List String :=
  (words (trimChars line.data)).map (fun cs => ⟨cs⟩)

/-- Nonempty all-digit character list, the pieces of `^\d+(\.\d+)?$`. -/
def isDigitsL (cs : List Char) : Bool :=
  !cs.isEmpty && cs.all Char.isDigit

/-- The test `/^\d+(\.\d+)?$/.test(col1)` from parser.ts. -/
def isNumericToken (s : String) : Bool :=
  match splitOnChar '.' s.data with
  | [a] => isDigitsL a
  | [a, b] => isDigitsL a && isDigitsL b
  | _ => false

/-- Numeric value of an all-digit character list. -/
def digitsVal (cs : List Char) : ℕ :=
  cs.foldl (fun acc c => 10 * acc + (c.toNat - 48)) 0

/-- `parseFloat(col1)` on a token matching `^\d+(\.\d+)?$` (the only
place parser.ts calls it): the literal decimal value. -/
def decimalValue (s : String) : ℚ :=
  match splitOnChar '.' s.data with
  | [a] => (digitsVal a : ℚ)
  | [a, b] => (digitsVal a : ℚ) + (digitsVal b : ℚ) / ((10 : ℚ) ^ b.length)
  | _ => 0

/-- `s.toUpperCase()` (ASCII; the tokens compared against are ASCII). -/
def toUpper (s : String) : String :=
  ⟨s.data.map Char.toUpper⟩

/-- `s.endsWith('.')`. -/
def endsWithDot (s : String) : Bool :=
  s.data.getLast? = some '.'

/-- `s.slice(0, -1)`: drop the final character. -/
def dropLastChar (s : String) : String :=
  ⟨s.data.dropLast⟩

/-! ### The tablature parser (`src/utils/parser.ts`) -/

/-- Modelled from the spec: tick constant `TICKS_QUARTER` lives in
`src/types.ts`, which is absent from the sources; the spec fixes
quarter = 12 ticks, corroborated by the inline comment `// 12` in
`src/utils/parser.ts`. -/
def TICKS_QUARTER : ℚ := 12

/-- Modelled from the spec: eighth = 6 ticks (comment `// 6` in parser.ts). -/
def TICKS_EIGHTH : ℚ := 6

/-- Modelled from the spec: triplet-eighth = 4 ticks (comment `// 4`). -/
def TICKS_TRIPLET : ℚ := 4

/-- Modelled from the spec: sixteenth = 3 ticks (comment `// 3`). -/
def TICKS_SIXTEENTH : ℚ := 3

/-- The `ParsedNote` record built by `parseTablature` (fields read off the
construction sites in `src/utils/parser.ts`; the type itself lives in the
absent `src/types.ts`).  `duration` is always 0 in the parser. -/
structure ParsedNote where
  id : String
  tick : ℚ
  duration : ℚ
  stringId : String
  message : Option String := none
  isPageBreak : Bool := false
  doigt : Option String := none
  lineIndex : ℕ
deriving DecidableEq, Repr

/-- `SYMBOLS_DURATION` lookup table from parser.ts. -/
def SYMBOLS_DURATION (s : String) : Option ℚ :=
  if s = "+" then some TICKS_QUARTER
  else if s = "♪" then some TICKS_EIGHTH
  else if s = "🎶" then some TICKS_TRIPLET
  else if s = "♬" then some TICKS_SIXTEENTH
  else if s = "w" then some 48
  else if s = "h" then some 24
  else none

/-- `AUTOMATIC_FINGERING` lookup table from parser.ts. -/
def AUTOMATIC_FINGERING (s : String) : Option String :=
  if s = "1G" ∨ s = "2G" ∨ s = "3G" ∨ s = "1D" ∨ s = "2D" ∨ s = "3D" then some "P"
  else if s = "4G" ∨ s = "5G" ∨ s = "6G" ∨ s = "4D" ∨ s = "5D" ∨ s = "6D" then some "I"
  else none

/-- `Math.floor` on an exact rational: floor division of numerator by
denominator (`Int.fdiv` rounds toward negative infinity; `q.den > 0`). -/
def jsFloor (q : ℚ) : ℤ :=
  Int.fdiv q.num q.den

/-- The cursor value the delta is applied from: the `col1 === '='` branch
of parser.ts resets `currentTick` to the tick of the most recently
appended event (`data[data.length - 1].tick`) and leaves it unchanged
when `data` is empty; every other branch leaves the cursor alone. -/
def resolveBase (data : List ParsedNote) (currentTick : ℚ) (col1 : String) : ℚ :=
  if col1 = "=" then
    match data.getLast? with
    | some last => last.tick
    | none => currentTick
  else currentTick

/-- `thisDelta` as computed by the if/else chain of parser.ts.  The dotted
branch tests `SYMBOLS_DURATION[col1.slice(0,-1)]` for truthiness; all
table values are nonzero so this coincides with presence in the table.
`Math.floor(v * 1.5)` is `jsFloor (v * 3 / 2)`. -/
def resolveDelta (col1 : String) : ℚ :=
  if col1 = "=" then 0
  else if isNumericToken col1 then decimalValue col1
  else if (SYMBOLS_DURATION col1).isSome then (SYMBOLS_DURATION col1).getD 0
  else if endsWithDot col1 && (SYMBOLS_DURATION (dropLastChar col1)).isSome then
    ((jsFloor ((SYMBOLS_DURATION (dropLastChar col1)).getD 0 * 3 / 2) : ℤ) : ℚ)
  else 12

/-- Content analysis of a line (parser.ts after the delta computation):
from the fields, the line index and the already-computed tick, the event
appended to `data`, or `none` for silence lines.  This part of the loop
body reads nothing else of the parser state. -/
def contentEvent (index : ℕ) (noteTick : ℚ) (parts : List String) : Option ParsedNote :=
  let stringCode := toUpper (parts.getD 1 "")
  if stringCode = "TXT" then
    some { id := "txt-" ++ toString index, tick := noteTick, duration := 0,
           stringId := "TEXTE",
           message := some (String.intercalate " " (parts.drop 2)),
           lineIndex := index }
  else if stringCode = "PAGE" then
    some { id := "pg-" ++ toString index, tick := noteTick, duration := 0,
           stringId := "PAGE_BREAK", isPageBreak := true, lineIndex := index }
  else if stringCode = "S" ∨ stringCode = "SILENCE" ∨ stringCode = "SEP" then
    none
  else
    let doigt0 := (AUTOMATIC_FINGERING stringCode).getD "P"
    let doigt :=
      if 2 < parts.length then
        let p3 := toUpper (parts.getD 2 "")
        if p3 = "I" ∨ p3 = "P" then p3 else doigt0
      else doigt0
    some { id := "note-" ++ toString index, tick := noteTick, duration := 0,
           stringId := stringCode, doigt := some doigt, lineIndex := index }

/-- Parser state threaded through the `forEach` loop of parser.ts. -/
structure ParseState where
  data : List ParsedNote
  currentTick : ℚ
deriving Repr

/-- One iteration of the `lines.forEach((line, index) => ...)` body. -/
def processLine (st : ParseState) (index : ℕ) (line : String) : ParseState :=
  let parts := fields line
  if parts.length < 2 then st
  else
    let col1 := parts.getD 0 ""
    let noteTick := resolveBase st.data st.currentTick col1 + resolveDelta col1
    { data := st.data ++ (contentEvent index noteTick parts).toList,
      currentTick := noteTick }

/-- The `forEach` over all lines, with the running line index. -/
def processLines (st : ParseState) (index : ℕ) : List String → ParseState
  | [] => st
  | l :: ls => processLines (processLine st index l) (index + 1) ls

/-- `text.trim().split('\n')`. -/
def splitLines (text : String) : List String :=
  (splitOnChar '\n' (trimChars text.data)).map (fun cs => ⟨cs⟩)

/-- The event list in input order, before the final sort (the parser's
`data` array at the end of the loop).  `if (!text) return []` is the
empty-string guard. -/
def parseRaw (text : String) : List ParsedNote :=
  if text = "" then []
  else (processLines ⟨[], 0⟩ 0 (splitLines text)).data

/-- The comparator `(a, b) => a.tick - b.tick` of the final `data.sort`,
as the relation "a may stay before b": tick less than or equal. -/
def ticksLe (a b : ParsedNote) : Prop := a.tick ≤ b.tick

instance : DecidableRel ticksLe :=
  fun a b => inferInstanceAs (Decidable (a.tick ≤ b.tick))

/-- `parseTablature` from `src/utils/parser.ts`.  JS `Array.prototype.sort`
is stable (ES2019); the output of a stable sort under a total-preorder
comparator is unique, so any stable sort embeds it — here insertion sort,
which keeps earlier input among tick-equal events. -/
def parseTablature (text : String) : List ParsedNote :=
  (parseRaw text).insertionSort ticksLe

instance : IsTotal ParsedNote ticksLe :=
  ⟨fun a b => le_total a.tick b.tick⟩

instance : IsTrans ParsedNote ticksLe :=
  ⟨fun _ _ _ h1 h2 => le_trans h1 h2⟩

/-! ### The audio engine (`src/utils/audio.ts`)

The Web Audio platform objects are external collaborators.  A decoded
`AudioBuffer` held in the sample cache is opaque to the engine code and is
embedded as an abstract identity; the `OfflineAudioContext` DSP is
embedded as an explicit function argument `dsp` where the engine hands the
constructed render graph to the platform. -/

/-- Abstract identity of a decoded sample buffer (an external
`AudioBuffer` object). -/
abbrev SampleBuffer := ℕ

/-- The observable state of the engine's `AudioContext`. -/
structure CtxState where
  sampleRate : ℚ
  currentTime : ℚ
deriving DecidableEq, Repr

/-- The fields of the `AudioEngine` class that the claims touch.
`sampleSource` embeds the external fetch/decode of `loadSamples`
(including its per-note synthesized fallback): the buffer that resolving a
note name yields.  `rngSeed` embeds the `Math.random()` stream consumed by
live playback's `playNote` velocity; offline rendering must not read it. -/
structure EngineState where
  ctx : Option CtxState
  isPlaying : Bool
  nextNoteIndex : ℕ
  startTime : ℚ
  bpm : ℚ
  playbackSpeed : ℚ
  notes : List ParsedNote
  currentTuning : List (String × String)
  isMetronomeEnabled : Bool
  nextBeatTime : ℚ
  currentBeatIndex : ℤ
  stringBuffers : List (String × SampleBuffer)
  samplesLoaded : Bool
  sampleSource : String → SampleBuffer
  rngSeed : ℕ

/-- JS object-as-map lookup, `m[k]`, for the tuning record. -/
def lookupStr (m : List (String × String)) (k : String) : Option String :=
  (m.find? (fun p => p.1 == k)).map Prod.snd

/-- JS object-as-map lookup, `m[k]`, for the sample cache. -/
def lookupBuf (m : List (String × SampleBuffer)) (k : String) : Option SampleBuffer :=
  (m.find? (fun p => p.1 == k)).map Prod.snd

/-- `Array.from(new Set(xs))`: first occurrences, in order. -/
def uniqueFirst (l : List String) : List String :=
  l.foldl (fun acc x => if x ∈ acc then acc else acc ++ [x]) []

/-- The sample cache after `loadSamples`: for each distinct note name of
the tuning, an entry is added unless one is already cached (the keys being
distinct, checking the accumulator equals JS checking `this.stringBuffers`
per promise).  Without a context, `loadSamples` returns immediately. -/
def loadedBuffers (ctx : Option CtxState) (tuning : List (String × String))
    (bufs : List (String × SampleBuffer)) (src : String → SampleBuffer) :
    List (String × SampleBuffer) :=
  match ctx with
  | none => bufs
  | some _ =>
    (uniqueFirst (tuning.map Prod.snd)).foldl
      (fun acc note =>
        if (lookupBuf acc note).isSome then acc else acc ++ [(note, src note)])
      bufs

/-- `loadSamples` from audio.ts as a state transformer. -/
def loadSamples (s : EngineState) : EngineState :=
  match s.ctx with
  | none => s
  | some _ =>
    { s with
      stringBuffers := loadedBuffers s.ctx s.currentTuning s.stringBuffers s.sampleSource,
      samplesLoaded := true }

/-- One `source.start(noteTime)` issued into the offline graph: start
time, buffer, and gain (0.4). -/
structure RenderedNote where
  time : ℚ
  buffer : SampleBuffer
  gain : ℚ
deriving DecidableEq, Repr

/-- The offline render graph handed to `OfflineAudioContext`: its
constructor arguments (2 channels, `sampleRate * duration` frames,
`sampleRate`) and the scheduled sources.  The platform's deterministic
DSP turns this into PCM; it is the `dsp` argument of the exports. -/
structure RenderOutput where
  channels : ℕ
  length : ℚ
  sampleRate : ℚ
  scheduled : List RenderedNote
deriving DecidableEq, Repr

/-- The graph-building loop of `renderProjectToBuffer`: notes whose tuning
entry is missing, empty (JS falsy), or has no cached buffer are silently
dropped. -/
def renderSchedule (ctx : Option CtxState) (bpm speed : ℚ) (notes : List ParsedNote)
    (tuning : List (String × String)) (bufs : List (String × SampleBuffer)) :
    Option RenderOutput :=
  match notes.getLast? with
  | none => none
  | some lastNote =>
    let effectiveBpm := bpm * speed
    let secondsPerTick := 60 / effectiveBpm / 12
    let duration := lastNote.tick * secondsPerTick + 3
    let sampleRate : ℚ :=
      match ctx with
      | some c => c.sampleRate
      | none => 44100
    some { channels := 2, length := sampleRate * duration, sampleRate := sampleRate,
           scheduled := notes.filterMap (fun note =>
             match lookupStr tuning note.stringId with
             | none => none
             | some noteName =>
               if noteName = "" then none
               else
                 match lookupBuf bufs noteName with
                 | none => none
                 | some buf =>
                   some { time := note.tick * secondsPerTick, buffer := buf, gain := 2 / 5 }) }

/-- `renderProjectToBuffer` from audio.ts: `null` on an empty note list,
otherwise load samples and build the offline graph. -/
def renderProjectToBuffer (s : EngineState) : EngineState × Option RenderOutput :=
  if s.notes.isEmpty then (s, none)
  else
    let s1 := loadSamples s
    (s1, renderSchedule s1.ctx s1.bpm s1.playbackSpeed s1.notes s1.currentTuning s1.stringBuffers)

/-- The rendered `AudioBuffer` returned by the platform DSP: channel
count, rate, frame count, and per-channel sample data. -/
structure AudioBufferData where
  numberOfChannels : ℕ
  sampleRate : ℚ
  length : ℕ
  channelData : List (List ℚ)

/-- `Math.max(-1, Math.min(1, x))`. -/
def clampSample (s : ℚ) : ℚ := max (-1) (min 1 s)

/-- The `|0` coercion on an in-range value: truncation toward zero
(`Int.tdiv` is T-division; `q.den > 0`). -/
def jsTrunc (q : ℚ) : ℤ := Int.tdiv q.num (q.den : ℤ)

/-- The per-sample quantizer of `bufferToWave`, exactly as written:
`sample = (0.5 + sample < 0 ? sample * 32768 : sample * 32767)|0` after
the clamp — JS precedence parses the condition as `(0.5 + sample) < 0`,
so the threshold is −0.5, not 0. -/
def wavQuantize (s : ℚ) : ℤ :=
  let c := clampSample s
  if 1 / 2 + c < 0 then jsTrunc (c * 32768) else jsTrunc (c * 32767)

/-- The per-sample quantizer of `exportMp3`, exactly as written:
`val < 0 ? val * 0x8000 : val * 0x7FFF` after the clamp (the assignment
into an `Int16Array` truncates toward zero; values are in range). -/
def mp3Quantize (s : ℚ) : ℤ :=
  let c := clampSample s
  if c < 0 then jsTrunc (c * 32768) else jsTrunc (c * 32767)

/-- The WAV container built by `bufferToWave`: header parameters and the
interleaved 16-bit samples (`length - 8`, byte rate, block align and the
chunk sizes are all functions of these fields, written little-endian). -/
structure WavFile where
  numChannels : ℕ
  sampleRate : ℚ
  byteLength : ℕ
  samples : List ℤ
deriving Repr

/-- `bufferToWave(abuffer, len)` from audio.ts: a fixed 44-byte header
followed by, for each frame position, one quantized sample per channel. -/
def bufferToWave (ab : AudioBufferData) (len : ℕ) : WavFile :=
  { numChannels := ab.numberOfChannels,
    sampleRate := ab.sampleRate,
    byteLength := len * ab.numberOfChannels * 2 + 44,
    samples := (List.range len).flatMap (fun pos =>
      (List.range ab.numberOfChannels).map (fun i =>
        wavQuantize ((ab.channelData.getD i []).getD pos 0))) }

/-- The input fed to the external `lamejs` constant-bitrate encoder by
`exportMp3`: channel count, rate, 320 kbps, 1152-sample blocks, and the
two quantized channel streams (mono duplicates the left channel).  The
encoder's byte output is a fixed function of these. -/
structure Mp3Blob where
  channels : ℕ
  sampleRate : ℚ
  bitrate : ℕ
  blockSize : ℕ
  samplesLeft : List ℤ
  samplesRight : List ℤ
deriving Repr

/-- The encoding stage of `exportMp3` (everything after the render). -/
def mp3Encode (ab : AudioBufferData) : Mp3Blob :=
  let left := ab.channelData.getD 0 []
  let right := if 1 < ab.numberOfChannels then ab.channelData.getD 1 [] else left
  { channels := ab.numberOfChannels, sampleRate := ab.sampleRate, bitrate := 320,
    blockSize := 1152,
    samplesLeft := left.map mp3Quantize,
    samplesRight := right.map mp3Quantize }

/-- `exportWav` from audio.ts: save the speed multiplier, render at 1.0,
restore it, then wrap the rendered buffer.  `dsp` is the platform's
offline renderer (`startRendering`). -/
def exportWav (dsp : RenderOutput → AudioBufferData) (s : EngineState) :
    EngineState × Option WavFile :=
  let savedSpeed := s.playbackSpeed
  let s1 := { s with playbackSpeed := (1 : ℚ) }
  let r := renderProjectToBuffer s1
  let s3 := { r.1 with playbackSpeed := savedSpeed }
  (s3, r.2.map (fun out => bufferToWave (dsp out) (dsp out).length))

/-- `exportMp3` from audio.ts: same speed save/restore around the render,
then quantize and stream to the external encoder. -/
def exportMp3 (dsp : RenderOutput → AudioBufferData) (s : EngineState) :
    EngineState × Option Mp3Blob :=
  let savedSpeed := s.playbackSpeed
  let s1 := { s with playbackSpeed := (1 : ℚ) }
  let r := renderProjectToBuffer s1
  let s3 := { r.1 with playbackSpeed := savedSpeed }
  (s3, r.2.map (fun out => mp3Encode (dsp out)))

/-- `getCurrentTick` from audio.ts. -/
def getCurrentTick (s : EngineState) : ℚ :=
  match s.ctx with
  | none => 0
  | some c =>
    if s.isPlaying = false then 0
    else (c.currentTime - s.startTime) / (60 / (s.bpm * s.playbackSpeed) / 12)

/-- A stopped engine with no context (the state right after construction),
used as a concrete instantiation. -/
def stoppedEngine : EngineState :=
  { ctx := none, isPlaying := false, nextNoteIndex := 0, startTime := 0, bpm := 120,
    playbackSpeed := 1, notes := [], currentTuning := [], isMetronomeEnabled := false,
    nextBeatTime := 0, currentBeatIndex := 0, stringBuffers := [], samplesLoaded := false,
    sampleSource := fun _ => 0, rngSeed := 0 }

/-- A playing engine with a context, one note and nonzero live-state
fields, used as a concrete instantiation. -/
def playingEngine : EngineState :=
  { ctx := some { sampleRate := 44100, currentTime := 9 }, isPlaying := true,
    nextNoteIndex := 1, startTime := 2, bpm := 120, playbackSpeed := 1,
    notes := [{ id := "note-0", tick := 12, duration := 0, stringId := "1D",
                doigt := some "P", lineIndex := 0 }],
    currentTuning := [("1D", "C4")], isMetronomeEnabled := true, nextBeatTime := 3,
    currentBeatIndex := 4, stringBuffers := [("C4", 5)], samplesLoaded := true,
    sampleSource := fun _ => 6, rngSeed := 1 }

/-- `playingEngine` with its live-only fields (clock origin, RNG seed,
playing flag, scheduler and metronome cursors) changed; the render inputs
are untouched. -/
def playingEngineAlt : EngineState :=
  { playingEngine with rngSeed := 2, startTime := 100, isPlaying := false, nextNoteIndex := 0, currentBeatIndex := 0 }

/-- `playingEngine` with the playing flag cleared. -/
def pausedEngine : EngineState :=
  { playingEngine with isPlaying := false }

/-! ### Helper lemmas -/

theorem loadSamples_fields (s : EngineState) :
    (loadSamples s).ctx = s.ctx ∧ (loadSamples s).bpm = s.bpm ∧
    (loadSamples s).playbackSpeed = s.playbackSpeed ∧ (loadSamples s).notes = s.notes ∧
    (loadSamples s).currentTuning = s.currentTuning ∧
    (loadSamples s).stringBuffers
      = loadedBuffers s.ctx s.currentTuning s.stringBuffers s.sampleSource := by
  cases hc : s.ctx <;> simp [loadSamples, loadedBuffers, hc]

theorem renderProjectToBuffer_snd (s : EngineState) :
    (renderProjectToBuffer s).2
      = if s.notes.isEmpty then none
        else renderSchedule s.ctx s.bpm s.playbackSpeed s.notes s.currentTuning
          (loadedBuffers s.ctx s.currentTuning s.stringBuffers s.sampleSource) := by
  obtain ⟨h1, h2, h3, h4, h5, h6⟩ := loadSamples_fields s
  unfold renderProjectToBuffer
  split
  · rfl
  · simp only [h1, h2, h3, h4, h5, h6]

theorem contentEvent_some {index : ℕ} {t : ℚ} {parts : List String} {e : ParsedNote}
    (h : contentEvent index t parts = some e) : e.tick = t ∧ e.lineIndex = index := by
  simp only [contentEvent] at h
  split_ifs at h <;>
    first
      | exact Option.noConfusion h
      | (have h' := Option.some.inj h; subst h'; exact ⟨rfl, rfl⟩)

theorem processLine_spec (st : ParseState) (index : ℕ) (line : String)
    (h : 2 ≤ (fields line).length) :
    processLine st index line
      = { data := st.data ++ (contentEvent index
            (resolveBase st.data st.currentTick ((fields line).getD 0 "")
              + resolveDelta ((fields line).getD 0 "")) (fields line)).toList,
          currentTick := resolveBase st.data st.currentTick ((fields line).getD 0 "")
            + resolveDelta ((fields line).getD 0 "") } := by
  have hc : ¬ (fields line).length < 2 := by omega
  simp only [processLine]
  rw [if_neg hc]

theorem mem_processLine {st : ParseState} {index : ℕ} {line : String} {e : ParsedNote}
    (h : e ∈ (processLine st index line).data) :
    e ∈ st.data ∨ ∃ t : ℚ, contentEvent index t (fields line) = some e := by
  by_cases hlen : (fields line).length < 2
  · left
    simp only [processLine] at h
    rwa [if_pos hlen] at h
  · have hlen2 : 2 ≤ (fields line).length := by omega
    rw [processLine_spec st index line hlen2] at h
    rcases List.mem_append.mp h with h | h
    · exact Or.inl h
    · right
      rw [Option.mem_toList, Option.mem_def] at h
      exact ⟨_, h⟩

theorem processLines_provenance :
    ∀ (ls : List String) (st : ParseState) (i : ℕ) (e : ParsedNote),
      e ∈ (processLines st i ls).data →
      e ∈ st.data ∨
        (i ≤ e.lineIndex ∧ e.lineIndex < i + ls.length ∧
          ∃ t : ℚ, contentEvent e.lineIndex t (fields (ls.getD (e.lineIndex - i) "")) = some e)
  | [], _, _, _, h => Or.inl h
  | l :: ls, st, i, e, h => by
    rcases processLines_provenance ls (processLine st i l) (i + 1) e h with h1 | ⟨h1, h2, t, h3⟩
    · rcases mem_processLine h1 with h2 | ⟨t, h2⟩
      · exact Or.inl h2
      · right
        have hidx := (contentEvent_some h2).2
        refine ⟨by omega, by simp only [List.length_cons]; omega, t, ?_⟩
        rw [hidx, Nat.sub_self]
        simpa [hidx] using h2
    · right
      refine ⟨by omega, by simp only [List.length_cons]; omega, t, ?_⟩
      have hk : e.lineIndex - i = (e.lineIndex - (i + 1)) + 1 := by omega
      rw [hk]
      simpa using h3

/-! ### Claims about the parser -/

/-- C1 (amended): for every processed line the emitted event's tick is
the running cursor plus the resolved delta, where the `=` token resets
the cursor to the tick of the most recently appended event before its
zero delta — and, when no event exists yet, leaves the cursor unchanged
(rather than resetting it to 0); the cursor is then set to the event's
tick.  Numeric tokens contribute their literal value, the duration
symbols their fixed values (12, 6, 4, 3, 48, 24), a trailing dot 1.5× the
symbol's value floored.  The claim's example sequences evaluate as
stated. -/
theorem claim1_delta_and_cursor :
    (∀ (st : ParseState) (index : ℕ) (line : String),
        2 ≤ (fields line).length →
        (processLine st index line).currentTick
            = resolveBase st.data st.currentTick ((fields line).getD 0 "")
              + resolveDelta ((fields line).getD 0 "") ∧
        ∀ e ∈ (processLine st index line).data,
          e ∈ st.data ∨ e.tick = (processLine st index line).currentTick) ∧
    (∀ s : String, isNumericToken s = true → resolveDelta s = decimalValue s) ∧
    resolveDelta "+" = 12 ∧ resolveDelta "♪" = 6 ∧ resolveDelta "🎶" = 4 ∧
    resolveDelta "♬" = 3 ∧ resolveDelta "w" = 48 ∧ resolveDelta "h" = 24 ∧
    resolveDelta "+." = 18 ∧ resolveDelta "♪." = 9 ∧ resolveDelta "=" = 0 ∧
    (parseTablature "+ 1D\n♪ 2G\n= 3D").map (fun n => n.tick) = [12, 18, 18] ∧
    (parseTablature "+. 1D").map (fun n => n.tick) = [18] := by
  refine ⟨?_, ?_, ?_, ?_, ?_, ?_, ?_, ?_, ?_, ?_, ?_, ?_, ?_⟩
  · intro st index line h
    rw [processLine_spec st index line h]
    refine ⟨rfl, ?_⟩
    intro e he
    rcases List.mem_append.mp he with he | he
    · exact Or.inl he
    · right
      rw [Option.mem_toList, Option.mem_def] at he
      exact (contentEvent_some he).1
  · intro s hs
    have hne : s ≠ "=" := by
      rintro rfl
      exact absurd hs (by with_unfolding_all decide)
    unfold resolveDelta
    rw [if_neg hne, if_pos hs]
  · with_unfolding_all decide
  · with_unfolding_all decide
  · with_unfolding_all decide
  · with_unfolding_all decide
  · with_unfolding_all decide
  · with_unfolding_all decide
  · with_unfolding_all decide
  · with_unfolding_all decide
  · with_unfolding_all decide
  · have h1 : parseRaw "+ 1D\n♪ 2G\n= 3D"
        = [⟨"note-0", 12, 0, "1D", none, false, some "P", 0⟩,
           ⟨"note-1", 18, 0, "2G", none, false, some "P", 1⟩,
           ⟨"note-2", 18, 0, "3D", none, false, some "P", 2⟩] := by
      with_unfolding_all decide
    rw [parseTablature, h1]
    with_unfolding_all decide
  · have h1 : parseRaw "+. 1D" = [⟨"note-0", 18, 0, "1D", none, false, some "P", 0⟩] := by
      with_unfolding_all decide
    rw [parseTablature, h1]
    with_unfolding_all decide

/-- Witness for C1: the general step property instantiated on the first
line `"+ 1D"` from the initial state, and the numeric-token case on
`"7"`. -/
theorem claim1_witness :
    2 ≤ (fields "+ 1D").length ∧
    (processLine ⟨[], 0⟩ 0 "+ 1D").currentTick
        = resolveBase (⟨[], 0⟩ : ParseState).data (⟨[], 0⟩ : ParseState).currentTick
            ((fields "+ 1D").getD 0 "") + resolveDelta ((fields "+ 1D").getD 0 "") ∧
    isNumericToken "7" = true ∧ resolveDelta "7" = decimalValue "7" :=
  ⟨by with_unfolding_all decide,
   (claim1_delta_and_cursor.1 ⟨[], 0⟩ 0 "+ 1D" (by with_unfolding_all decide)).1,
   by with_unfolding_all decide,
   claim1_delta_and_cursor.2.1 "7" (by with_unfolding_all decide)⟩

/-- Counterexample for C1: the claim reads "the `=` token contributes 0
after resetting the cursor to the tick of the most recently emitted
event (0 from origin when no event exists yet)".  On `"+ S"` then
`"= 1D"` no event has been emitted when the `=` line runs, yet the cursor
has already advanced to 12 through the silence line, so the note lands at
tick 12, not 0: the code leaves the cursor unchanged instead of resetting
it to 0. -/
theorem claim1_counterexample :
    (parseTablature "+ S\n= 1D").map (fun n => n.tick) = [12] ∧ (12 : ℚ) ≠ 0 := by
  constructor
  · have h1 : parseRaw "+ S\n= 1D" = [⟨"note-1", 12, 0, "1D", none, false, some "P", 1⟩] := by
      with_unfolding_all decide
    rw [parseTablature, h1]
    with_unfolding_all decide
  · norm_num

/-- C2: for every input, the parsed sequence is sorted by non-decreasing
tick, and the events at any given tick appear exactly in their input
(pre-sort) order: filtering the sorted output by a tick value gives the
same list as filtering the in-input-order event list. -/
theorem claim2_sorted_stable (text : String) :
    List.Sorted ticksLe (parseTablature text) ∧
    ∀ t : ℚ, (parseTablature text).filter (fun e => decide (e.tick = t))
        = (parseRaw text).filter (fun e => decide (e.tick = t)) := by
  constructor
  · exact List.sorted_insertionSort ticksLe _
  · intro t
    have hmem : ∀ a ∈ (parseRaw text).filter (fun e => decide (e.tick = t)), a.tick = t :=
      fun a ha => of_decide_eq_true (List.mem_filter.mp ha).2
    have hpw : ((parseRaw text).filter (fun e => decide (e.tick = t))).Pairwise ticksLe := by
      apply List.pairwise_of_forall_mem_list
      intro a ha b hb
      show a.tick ≤ b.tick
      rw [hmem a ha, hmem b hb]
    have hs2 : List.Sublist ((parseRaw text).filter (fun e => decide (e.tick = t)))
        ((parseRaw text).insertionSort ticksLe) :=
      List.sublist_insertionSort hpw (List.filter_sublist _)
    have hs3 := hs2.filter (fun e => decide (e.tick = t))
    rw [List.filter_eq_self.mpr (fun a ha => (List.mem_filter.mp ha).2)] at hs3
    have hperm : List.Perm
        (((parseRaw text).insertionSort ticksLe).filter (fun e => decide (e.tick = t)))
        ((parseRaw text).filter (fun e => decide (e.tick = t))) :=
      (List.perm_insertionSort ticksLe _).filter _
    exact (hs3.eq_of_length hperm.length_eq.symm).symm

/-- C4 (amended): every emitted event's recorded line index is the index,
within the lines of the *trimmed* input text (`text.trim().split('\n')`),
of the line that produced it: that line, analyzed at some tick, yields
exactly this event.  (For texts with no leading whitespace line this
coincides with the original text's line numbering.) -/
theorem claim4_line_provenance (text : String) (e : ParsedNote)
    (he : e ∈ parseTablature text) :
    e.lineIndex < (splitLines text).length ∧
    ∃ t : ℚ, contentEvent e.lineIndex t
      (fields ((splitLines text).getD e.lineIndex "")) = some e := by
  unfold parseTablature at he
  have hraw := (List.mem_insertionSort ticksLe).mp he
  by_cases htext : text = ""
  · rw [parseRaw, if_pos htext] at hraw
    cases hraw
  · rw [parseRaw, if_neg htext] at hraw
    rcases processLines_provenance (splitLines text) ⟨[], 0⟩ 0 e hraw with h | ⟨_, h2, t, h3⟩
    · cases h
    · refine ⟨by omega, t, ?_⟩
      simpa using h3

/-- Witness for C4: the single event of `"+ 1D"` is produced by line 0 of
the trimmed text. -/
theorem claim4_witness :
    (⟨"note-0", 12, 0, "1D", none, false, some "P", 0⟩ : ParsedNote) ∈ parseTablature "+ 1D" ∧
    ((⟨"note-0", 12, 0, "1D", none, false, some "P", 0⟩ : ParsedNote).lineIndex
        < (splitLines "+ 1D").length ∧
      ∃ t : ℚ, contentEvent 0 t (fields ((splitLines "+ 1D").getD 0 ""))
        = some ⟨"note-0", 12, 0, "1D", none, false, some "P", 0⟩) :=
  ⟨by with_unfolding_all decide,
   claim4_line_provenance "+ 1D" ⟨"note-0", 12, 0, "1D", none, false, some "P", 0⟩
     (by with_unfolding_all decide)⟩

/-- Counterexample for C4: the parser trims the text before splitting
into lines, so on the input `"\n+ 1D"` the single event records line
index 0, while in the original input text line 0 is the empty line — a
line with no fields, which the parser skips — and the producing line
`"+ 1D"` is at index 1. -/
theorem claim4_counterexample :
    (parseTablature "\n+ 1D").map (fun e => (e.lineIndex, e.stringId)) = [(0, "1D")] ∧
    (splitOnChar '\n' ("\n+ 1D").data).map (fun cs => (⟨cs⟩ : String)) = ["", "+ 1D"] ∧
    fields "" = [] := by
  refine ⟨?_, ?_, ?_⟩
  · have h1 : parseRaw "\n+ 1D" = [⟨"note-0", 12, 0, "1D", none, false, some "P", 0⟩] := by
      with_unfolding_all decide
    rw [parseTablature, h1]
    with_unfolding_all decide
  · with_unfolding_all decide
  · with_unfolding_all decide

/-- C6: a first field that is not `=`, not numeric, not a known duration
symbol and not a known symbol with a trailing dot resolves to the
fallback delta of 12 ticks; `parseTablature` is a total function (it is
defined without any failure path), and `"xyz 1D"` parses to a note at
tick 12. -/
theorem claim6_fallback_delta :
    (∀ col1 : String, col1 ≠ "=" → isNumericToken col1 = false →
        SYMBOLS_DURATION col1 = none →
        (endsWithDot col1 && (SYMBOLS_DURATION (dropLastChar col1)).isSome) = false →
        resolveDelta col1 = 12) ∧
    (parseTablature "xyz 1D").map (fun n => n.tick) = [12] := by
  constructor
  · intro c h1 h2 h3 h4
    simp [resolveDelta, h1, h2, h3, h4]
  · have h1 : parseRaw "xyz 1D" = [⟨"note-0", 12, 0, "1D", none, false, some "P", 0⟩] := by
      with_unfolding_all decide
    rw [parseTablature, h1]
    with_unfolding_all decide

/-- Witness for C6: the fallback case instantiated at the token `"xyz"`. -/
theorem claim6_witness :
    ("xyz" : String) ≠ "=" ∧ isNumericToken "xyz" = false ∧
    SYMBOLS_DURATION "xyz" = none ∧
    (endsWithDot "xyz" && (SYMBOLS_DURATION (dropLastChar "xyz")).isSome) = false ∧
    resolveDelta "xyz" = 12 :=
  ⟨by decide, by with_unfolding_all decide, by with_unfolding_all decide,
   by with_unfolding_all decide,
   claim6_fallback_delta.1 "xyz" (by decide) (by with_unfolding_all decide)
     (by with_unfolding_all decide) (by with_unfolding_all decide)⟩

/-- C7: a line whose second field uppercases to `S`, `SILENCE` or `SEP`
advances the cursor by the line's resolved delta but appends no event;
`"+ S"` followed by `"+ 1D"` yields exactly one event, at tick 24. -/
theorem claim7_silence_advances :
    (∀ (st : ParseState) (index : ℕ) (line : String),
        2 ≤ (fields line).length →
        (toUpper ((fields line).getD 1 "") = "S" ∨
          toUpper ((fields line).getD 1 "") = "SILENCE" ∨
          toUpper ((fields line).getD 1 "") = "SEP") →
        (processLine st index line).data = st.data ∧
        (processLine st index line).currentTick
            = resolveBase st.data st.currentTick ((fields line).getD 0 "")
              + resolveDelta ((fields line).getD 0 "")) ∧
    parseTablature "+ S\n+ 1D" = [⟨"note-1", 24, 0, "1D", none, false, some "P", 1⟩] := by
  constructor
  · intro st index line hlen hsil
    rw [processLine_spec st index line hlen]
    have hce : ∀ t : ℚ, contentEvent index t (fields line) = none := by
      intro t
      simp only [contentEvent]
      rcases hsil with h | h | h <;> rw [h] <;> simp
    refine ⟨?_, rfl⟩
    rw [hce]
    simp
  · have h1 : parseRaw "+ S\n+ 1D" = [⟨"note-1", 24, 0, "1D", none, false, some "P", 1⟩] := by
      with_unfolding_all decide
    rw [parseTablature, h1]
    with_unfolding_all decide

/-- Witness for C7: the silence step instantiated on `"+ S"` from the
initial state: no event, cursor advanced by the quarter-note delta. -/
theorem claim7_witness :
    2 ≤ (fields "+ S").length ∧ toUpper ((fields "+ S").getD 1 "") = "S" ∧
    (processLine ⟨[], 0⟩ 0 "+ S").data = [] ∧
    (processLine ⟨[], 0⟩ 0 "+ S").currentTick
        = resolveBase (⟨[], 0⟩ : ParseState).data (⟨[], 0⟩ : ParseState).currentTick
            ((fields "+ S").getD 0 "") + resolveDelta ((fields "+ S").getD 0 "") :=
  ⟨by with_unfolding_all decide, by with_unfolding_all decide,
   (claim7_silence_advances.1 ⟨[], 0⟩ 0 "+ S" (by with_unfolding_all decide)
     (Or.inl (by with_unfolding_all decide))).1,
   (claim7_silence_advances.1 ⟨[], 0⟩ 0 "+ S" (by with_unfolding_all decide)
     (Or.inl (by with_unfolding_all decide))).2⟩

/-! ### Claims about the export pipeline -/

/-- C3: the claim states the WAV quantizer scales a clamped sample `s` by
32768 when `s < 0` and by 32767 when `s ≥ 0`.  The code's condition
`0.5 + sample < 0` puts the threshold at −0.5 instead: at the sample
−1/4 the WAV path writes `trunc(−1/4 × 32767) = −8191`, while the claim's
formula — and the MP3 quantizer in the same file — give −8192. -/
theorem claim3_wav_quantizer_threshold :
    wavQuantize (-(1 / 4)) = -8191 ∧
    mp3Quantize (-(1 / 4)) = -8192 ∧
    (if (-(1 / 4) : ℚ) < 0 then jsTrunc ((-(1 / 4) : ℚ) * 32768)
     else jsTrunc ((-(1 / 4) : ℚ) * 32767)) = -8192 := by
  refine ⟨?_, ?_, ?_⟩ <;> with_unfolding_all decide

/-- C5: the exported blobs do not depend on the live playback speed
multiplier — for any two engine states that differ only in the
multiplier, `exportWav` and `exportMp3` produce identical outputs (the
render is evaluated at unit speed in both). -/
theorem claim5_export_speed_independent (dsp : RenderOutput → AudioBufferData)
    (s : EngineState) (v : ℚ) :
    (exportWav dsp s).2 = (exportWav dsp { s with playbackSpeed := v }).2 ∧
    (exportMp3 dsp s).2 = (exportMp3 dsp { s with playbackSpeed := v }).2 :=
  ⟨rfl, rfl⟩

/-- C8: offline rendering is deterministic — any two engine states that
agree on the render's inputs (context, tempo, speed, notes, tuning,
sample cache and sample source) produce equal render outputs, whatever
their live-playback state (playing flag, clock origin, scheduler index,
metronome state, RNG stream). -/
theorem claim8_render_deterministic (s1 s2 : EngineState)
    (hctx : s1.ctx = s2.ctx) (hbpm : s1.bpm = s2.bpm)
    (hspd : s1.playbackSpeed = s2.playbackSpeed) (hn : s1.notes = s2.notes)
    (ht : s1.currentTuning = s2.currentTuning) (hb : s1.stringBuffers = s2.stringBuffers)
    (hsrc : s1.sampleSource = s2.sampleSource) :
    (renderProjectToBuffer s1).2 = (renderProjectToBuffer s2).2 := by
  rw [renderProjectToBuffer_snd, renderProjectToBuffer_snd,
    hctx, hbpm, hspd, hn, ht, hb, hsrc]

/-- Witness for C8: two states differing in their clock, RNG seed,
playing flag and scheduler fields render identically. -/
theorem claim8_witness :
    playingEngineAlt.notes = playingEngine.notes ∧
    playingEngineAlt.rngSeed ≠ playingEngine.rngSeed ∧
    (renderProjectToBuffer playingEngineAlt).2 = (renderProjectToBuffer playingEngine).2 :=
  ⟨rfl, by decide,
    claim8_render_deterministic playingEngineAlt playingEngine rfl rfl rfl rfl rfl rfl rfl⟩

/-- C9: `exportWav` and `exportMp3` restore the playback speed multiplier
to its prior value before returning, for every starting value, and the
blob they return is built from the render of the engine state with the
multiplier set to 1.0. -/
theorem claim9_export_restores_speed (dsp : RenderOutput → AudioBufferData)
    (s : EngineState) :
    (exportWav dsp s).1.playbackSpeed = s.playbackSpeed ∧
    (exportMp3 dsp s).1.playbackSpeed = s.playbackSpeed ∧
    (exportWav dsp s).2
      = (renderProjectToBuffer { s with playbackSpeed := (1 : ℚ) }).2.map
          (fun out => bufferToWave (dsp out) (dsp out).length) ∧
    (exportMp3 dsp s).2
      = (renderProjectToBuffer { s with playbackSpeed := (1 : ℚ) }).2.map
          (fun out => mp3Encode (dsp out)) :=
  ⟨rfl, rfl, rfl, rfl⟩

/-- C10: `getCurrentTick` returns exactly 0 whenever the context is
uninitialized or the playing flag is false (and, being a total function
of the state, never throws there). -/
theorem claim10_getCurrentTick_zero (s : EngineState)
    (h : s.ctx = none ∨ s.isPlaying = false) :
    getCurrentTick s = 0 := by
  unfold getCurrentTick
  rcases h with h | h
  · rw [h]
  · cases hc : s.ctx with
    | none => rfl
    | some c => rw [h]; rfl

/-- Witness for C10: a stopped engine without a context, and a state that
has a context but a false playing flag, both report tick 0. -/
theorem claim10_witness :
    (stoppedEngine.ctx = none ∨ stoppedEngine.isPlaying = false) ∧
    getCurrentTick stoppedEngine = 0 ∧
    pausedEngine.isPlaying = false ∧ getCurrentTick pausedEngine = 0 :=
  ⟨Or.inl rfl, claim10_getCurrentTick_zero stoppedEngine (Or.inl rfl), rfl,
    claim10_getCurrentTick_zero pausedEngine (Or.inr rfl)⟩

end Ngonilele
